import Mathlib

/-!
Verification of the authoritative server core of the SPACE PUSH arena game,
a shallow embedding of `src/server/gameState.js`, `src/server/constants.js`
and the timer/handler logic of the socket server entry point.

Modelling conventions:
* JavaScript numbers are embedded as `ℚ` (all quantities the claims touch are
  produced by exact arithmetic: sums, differences, division by 1000);
  millisecond timestamps (`Date.now()`) are passed explicitly as a `now : ℚ`
  parameter wherever the source calls `Date.now()`.
* The `Map` of players (insertion ordered, unique keys) is embedded as a
  `List Player` together with `findPlayer` (first match, = `Map.get`) and
  `setPlayer` (replace the first record with the same id, append if absent,
  = `Map.set`); in-place mutation of a player object becomes `setPlayer`
  of the updated record.
* `Math.random()` draws (spawn positions) are passed in as parameters.
* The planar-distance test `Math.sqrt(x*x + z*z) > r + 1` is embedded by the
  equivalent exact test `r + 1 < 0 ∨ (r + 1)^2 < x^2 + z^2` (the equivalence
  with the square-root form over `ℝ` is proved in `sqrt_gt_iff` and
  `isCurrentlyOut_iff_sqrt` below).
-/

namespace SpacePush

/-! ### Constants (src/server/constants.js) -/

def PLAYER_COLORS : List String :=
  ["#ff4444", "#44ff44", "#4444ff", "#ffff44", "#ff44ff", "#44ffff",
   "#ff8844", "#88ff44", "#4488ff", "#ff4488", "#44ff88", "#8844ff"]

/-- `GAME_STATES` — the four match phases. -/
inductive GamePhase where
  | lobby
  | countdown
  | playing
  | ended
deriving DecidableEq, Repr

def INITIAL_RADIUS : ℚ := 10

def MIN_RADIUS : ℚ := 4

def SHRINK_INTERVAL : ℚ := 30000

def SHRINK_AMOUNT : ℚ := 2

def SHRINK_WARNING_TIME : ℚ := 5000

def FALL_THRESHOLD : ℚ := -5

def MAX_PLAYERS : ℕ := 40

/-! ### Data model (gameState.js) -/

structure Vec3 where
  x : ℚ
  y : ℚ
  z : ℚ
deriving DecidableEq, Repr

/-- The `lastHitBy` attribution record `{ id, name, timestamp }`. -/
structure HitRecord where
  id : String
  name : String
  timestamp : ℚ
deriving DecidableEq, Repr

/-- One player record, as built by `createPlayer` (gameState.js 30-72). -/
structure Player where
  id : String
  name : String
  color : String
  colorIndex : ℕ
  position : Vec3
  velocity : Vec3
  isEliminated : Bool
  isReady : Bool
  score : ℚ
  eliminations : ℕ
  survivalTime : ℚ
  outOfBoundsTime : ℚ
  isOutOfBounds : Bool
  outOfBoundsStartTime : Option ℚ
  gameStartTime : Option ℚ
  lastHitBy : Option HitRecord
  joinedAt : ℚ
  eliminatedAt : Option ℚ
  lastUpdate : Option ℚ
deriving DecidableEq, Repr

/-- The module-level mutable state of gameState.js:
`gameState`, `players`, `hostId`, `platformRadius`, `gameStartTime`,
`lastShrinkTime`. -/
structure GameState where
  gameState : GamePhase
  players : List Player
  hostId : Option String
  platformRadius : ℚ
  gameStartTime : Option ℚ
  lastShrinkTime : Option ℚ
deriving DecidableEq, Repr

/-- `players.get(id)` — first (unique) record with the given id. -/
def findPlayer (s : GameState) (id : String) : Option Player :=
  s.players.find? (fun p => p.id = id)

/-- `players.set(q.id, q)` — replace the first record carrying `q.id`
(append if the key is absent, as `Map.set` does). -/
def setPlayer : List Player → Player → List Player
  | [], q => [q]
  | p :: ps, q => if p.id = q.id then q :: ps else p :: setPlayer ps q

/-- In-place mutation of one player object, seen at the state level. -/
def updatePlayer (s : GameState) (q : Player) : GameState :=
  { s with players := setPlayer s.players q }

/-! ### Session-store operations (gameState.js) -/

/-- `createPlayer(id, name)` (gameState.js 30-72).  The `Math.random()` spawn
draws enter as `spawnX`/`spawnZ` (the source stores
`cos(angle)*spawnRadius` and `sin(angle)*spawnRadius`); `Date.now()` enters
as `now`. -/
def createPlayer (s : GameState) (id name : String) (spawnX spawnZ now : ℚ) :
    GameState × Player :=
  let colorIndex := s.players.length % PLAYER_COLORS.length
  let player : Player :=
    { id := id
      name := if name = "" then "Player" ++ toString (s.players.length + 1) else name
      color := PLAYER_COLORS.getD colorIndex ""
      colorIndex := colorIndex
      position := { x := spawnX, y := 1, z := spawnZ }
      velocity := { x := 0, y := 0, z := 0 }
      isEliminated := false
      isReady := false
      score := 0
      eliminations := 0
      survivalTime := 0
      outOfBoundsTime := 0
      isOutOfBounds := false
      outOfBoundsStartTime := none
      gameStartTime := none
      lastHitBy := none
      joinedAt := now
      eliminatedAt := none
      lastUpdate := none }
  let s1 := { s with players := s.players ++ [player] }
  let s2 := if s1.hostId = none then { s1 with hostId := some id } else s1
  (s2, player)

/-- The comparison `(a, b) => a.joinedAt - b.joinedAt` used by `removePlayer`;
the source's stable `Array.sort` is embedded as insertion sort (both are
stable comparison sorts, and the claims depend only on the sorted order). -/
def byJoinedAt (a b : Player) : Prop := a.joinedAt ≤ b.joinedAt

instance : DecidableRel byJoinedAt := fun a b =>
  inferInstanceAs (Decidable (a.joinedAt ≤ b.joinedAt))

/-- `removePlayer(id)` (gameState.js 79-97): delete the record; if the host
left, promote the head of the remaining players sorted by `joinedAt`
ascending, or clear the host when nobody remains. -/
def removePlayer (s : GameState) (id : String) : GameState × Option Player :=
  match findPlayer s id with
  | none => (s, none)
  | some p =>
    let remaining := s.players.filter (fun q => q.id ≠ id)
    let hostId1 :=
      if s.hostId = some id then
        match remaining.insertionSort byJoinedAt with
        | [] => none
        | q :: _ => some q.id
      else s.hostId
    ({ s with players := remaining, hostId := hostId1 }, some p)

/-- `updatePlayerPosition(id, position, velocity)` (gameState.js 147-156):
no-op for a missing or eliminated player; the velocity argument is optional
in the source (`if (velocity)`). -/
def updatePlayerPosition (s : GameState) (id : String) (position : Vec3)
    (velocity : Option Vec3) (now : ℚ) : GameState :=
  match findPlayer s id with
  | none => s
  | some p =>
    if p.isEliminated then s
    else
      updatePlayer s
        { p with position := position
                 velocity := velocity.getD p.velocity
                 lastUpdate := some now }

/-- `eliminatePlayer(id)` (gameState.js 163-171). -/
def eliminatePlayer (s : GameState) (id : String) (now : ℚ) : GameState × Bool :=
  match findPlayer s id with
  | none => (s, false)
  | some p =>
    if p.isEliminated then (s, false)
    else (updatePlayer s { p with isEliminated := true, eliminatedAt := some now }, true)

/-- `setGameState(state)` (gameState.js 193-199): entering `playing` stamps
`gameStartTime` and `lastShrinkTime`. -/
def setGameState (s : GameState) (st : GamePhase) (now : ℚ) : GameState :=
  if st = GamePhase.playing then
    { s with gameState := st, gameStartTime := some now, lastShrinkTime := some now }
  else { s with gameState := st }

/-- `getTimeUntilNextShrink(shrinkInterval)` (gameState.js 243-247). -/
def getTimeUntilNextShrink (s : GameState) (shrinkInterval now : ℚ) : ℚ :=
  match s.lastShrinkTime with
  | none => -1
  | some t => max 0 (shrinkInterval - (now - t))

structure WarningState where
  isWarning : Bool
  warningProgress : ℚ
deriving DecidableEq, Repr

/-- `getShrinkWarningState(shrinkInterval, warningTime)` (gameState.js 255-270). -/
def getShrinkWarningState (s : GameState) (shrinkInterval warningTime now : ℚ) :
    WarningState :=
  if s.lastShrinkTime = none ∨ s.platformRadius ≤ MIN_RADIUS then
    { isWarning := false, warningProgress := 0 }
  else
    let timeUntilShrink := getTimeUntilNextShrink s shrinkInterval now
    if timeUntilShrink ≤ warningTime ∧ timeUntilShrink > 0 then
      { isWarning := true, warningProgress := 1 - timeUntilShrink / warningTime }
    else { isWarning := false, warningProgress := 0 }

/-- The per-player body of `resetGame` (gameState.js 282-303); the fresh
`Math.random()` spawn draw enters as `spawn`. -/
def resetPlayerP (p : Player) (spawn : ℚ × ℚ) : Player :=
  { p with position := { x := spawn.1, y := 1, z := spawn.2 }
           velocity := { x := 0, y := 0, z := 0 }
           isEliminated := false
           isReady := false
           score := 0
           eliminations := 0
           survivalTime := 0
           outOfBoundsTime := 0
           isOutOfBounds := false
           outOfBoundsStartTime := none
           gameStartTime := none
           lastHitBy := none }

/-- `resetGame()` (gameState.js 275-304): back to the lobby, initial radius,
timers cleared, every player record reset in place. -/
def resetGame (s : GameState) (spawnOf : String → ℚ × ℚ) : GameState :=
  { s with gameState := GamePhase.lobby
           platformRadius := INITIAL_RADIUS
           gameStartTime := none
           lastShrinkTime := none
           players := s.players.map (fun p => resetPlayerP p (spawnOf p.id)) }

/-- `recordCollision(playerId, hitterId)` (gameState.js 357-368): stamp
`lastHitBy` on the victim only when both records exist and neither is
eliminated. -/
def recordCollision (s : GameState) (playerId hitterId : String) (now : ℚ) :
    GameState :=
  match findPlayer s playerId, findPlayer s hitterId with
  | some player, some hitter =>
    if player.isEliminated = false ∧ hitter.isEliminated = false then
      updatePlayer s
        { player with lastHitBy := some { id := hitter.id, name := hitter.name, timestamp := now } }
    else s
  | _, _ => s

/-- The boundary test of `updateBoundaryStatus` (gameState.js 381-382):
`Math.sqrt(x^2 + z^2) > platformRadius + 1 || y < -1`, written without the
square root (see `isCurrentlyOut_iff_sqrt`). -/
def isCurrentlyOut (p : Player) (platformRadius : ℚ) : Prop :=
  platformRadius + 1 < 0 ∨
    (platformRadius + 1) ^ 2 < p.position.x ^ 2 + p.position.z ^ 2 ∨
    p.position.y < -1

instance (p : Player) (platformRadius : ℚ) : Decidable (isCurrentlyOut p platformRadius) :=
  inferInstanceAs (Decidable (_ ∨ _ ∨ _))

/-- The trailing survival-time update of `updateBoundaryStatus`
(gameState.js 417-419), applied to the already-mutated player object. -/
def updateSurvival (p : Player) (now : ℚ) : Player :=
  match p.gameStartTime with
  | some t =>
    if p.isEliminated = false ∧ p.isOutOfBounds = false then
      { p with survivalTime := (now - t) / 1000 }
    else p
  | none => p

/-- The body of `updateBoundaryStatus` (gameState.js 376-422) for one
non-eliminated player; returns the mutated player and the
should-be-eliminated flag. -/
def updateBoundaryStatusP (p : Player) (platformRadius now : ℚ) : Player × Bool :=
  if isCurrentlyOut p platformRadius ∧ p.isOutOfBounds = false then
    (updateSurvival { p with isOutOfBounds := true, outOfBoundsStartTime := some now } now,
     false)
  else if ¬ isCurrentlyOut p platformRadius ∧ p.isOutOfBounds = true then
    (updateSurvival
      { p with isOutOfBounds := false
               outOfBoundsTime := p.outOfBoundsTime +
                 (match p.outOfBoundsStartTime with
                  | some t => (now - t) / 1000
                  | none => 0)
               outOfBoundsStartTime := none } now,
     false)
  else if isCurrentlyOut p platformRadius ∧ p.isOutOfBounds = true then
    match p.outOfBoundsStartTime with
    | some t =>
      if p.outOfBoundsTime + (now - t) / 1000 ≥ 10 then
        ({ p with outOfBoundsTime := p.outOfBoundsTime + (now - t) / 1000
                  outOfBoundsStartTime := none },
         true)
      else (updateSurvival p now, false)
    | none => (updateSurvival p now, false)
  else (updateSurvival p now, false)

/-- `updateBoundaryStatus(id, platformRadius)` (gameState.js 376-422). -/
def updateBoundaryStatus (s : GameState) (id : String) (platformRadius now : ℚ) :
    GameState × Bool :=
  match findPlayer s id with
  | none => (s, false)
  | some p =>
    if p.isEliminated then (s, false)
    else
      ((updatePlayer s (updateBoundaryStatusP p platformRadius now).1),
       (updateBoundaryStatusP p platformRadius now).2)

/-- The body of `calculatePlayerScore` (gameState.js 472-493) for one player:
`score = max(0, eliminations*100 + survivalTime - totalOutTime*10)` where
both time totals include the live in-progress interval. -/
def calcScoreP (p : Player) (now : ℚ) : Player :=
  let totalOutTime := p.outOfBoundsTime +
    (if p.isOutOfBounds = true then
       match p.outOfBoundsStartTime with
       | some t => (now - t) / 1000
       | none => 0
     else 0)
  let survivalTime :=
    match p.gameStartTime with
    | some t =>
      if p.isEliminated = false ∧ p.isOutOfBounds = false then (now - t) / 1000
      else p.survivalTime
    | none => p.survivalTime
  { p with score := max 0 ((p.eliminations : ℚ) * 100 + survivalTime - totalOutTime * 10) }

/-- `calculatePlayerScore(id)` (gameState.js 472-493). -/
def calculatePlayerScore (s : GameState) (id : String) (now : ℚ) : GameState :=
  match findPlayer s id with
  | none => s
  | some p => updatePlayer s (calcScoreP p now)

/-- The elimination reasons `'boundary' | 'fall' | 'pushed'`. -/
inductive ElimReason where
  | boundary
  | fall
  | pushed
deriving DecidableEq, Repr

/-- The `eliminatedBy` payload `{ id, name }`. -/
structure Credit where
  id : String
  name : String
deriving DecidableEq, Repr

/-- The elimination result of `eliminatePlayerWithAttribution`. -/
structure ElimInfo where
  playerId : String
  playerName : String
  reason : ElimReason
  eliminatedBy : Option Credit
  finalScore : ℚ
deriving DecidableEq, Repr

/-- The attribution block of `eliminatePlayerWithAttribution`
(gameState.js 440-453), run on the state in which the victim is already
marked eliminated: credit the recorded hitter iff the reason is `pushed`,
the hit is younger than 3000 ms, and the hitter is present and alive. -/
def creditStep (s1 : GameState) (victim : Player) (reason : ElimReason) (now : ℚ) :
    GameState × Option Credit :=
  match reason, victim.lastHitBy with
  | ElimReason.pushed, some hit =>
    if now - hit.timestamp < 3000 then
      match findPlayer s1 hit.id with
      | some hitter =>
        if hitter.isEliminated then (s1, none)
        else
          (updatePlayer s1 { hitter with eliminations := hitter.eliminations + 1 },
           some { id := hitter.id, name := hitter.name })
      | none => (s1, none)
    else (s1, none)
  | _, _ => (s1, none)

/-- `eliminatePlayerWithAttribution(id, reason)` (gameState.js 430-465). -/
def eliminatePlayerWithAttribution (s : GameState) (id : String)
    (reason : ElimReason) (now : ℚ) : GameState × Option ElimInfo :=
  match findPlayer s id with
  | none => (s, none)
  | some player =>
    if player.isEliminated then (s, none)
    else
      let victim := { player with isEliminated := true, eliminatedAt := some now }
      let s1 := updatePlayer s victim
      let credit := creditStep s1 victim reason now
      let s2 := calculatePlayerScore credit.1 id now
      (s2,
       some { playerId := id
              playerName := victim.name
              reason := reason
              eliminatedBy := credit.2
              finalScore := ((findPlayer s2 id).map Player.score).getD 0 })

/-- `initializeGameTimes()` (gameState.js 539-550); the identifier is
shortened, the body is the source's. -/
def initGameTimes (s : GameState) (now : ℚ) : GameState :=
  { s with players := s.players.map (fun p =>
      if p.isEliminated = false then
        { p with gameStartTime := some now
                 survivalTime := 0
                 outOfBoundsTime := 0
                 isOutOfBounds := false
                 outOfBoundsStartTime := none }
      else p) }

/-! ### Event-channel join handler (server entry point) -/

/-- Outbound messages relevant to the join path; `target` marks messages
emitted to one socket only, the rest are broadcasts. -/
inductive OutMsg where
  | joinError (target : String) (message : String)
  | joined (target : String)
  | playerJoined
  | playerCount (count : ℕ)
deriving DecidableEq, Repr

/-- The `join` handler: reject and reply `joinError` to the requester once
`getPlayerCount() >= PLAYERS.MAX_PLAYERS`, otherwise create the player and
emit the join broadcasts. -/
def handleJoin (s : GameState) (sockId name : String) (spawnX spawnZ now : ℚ) :
    GameState × List OutMsg :=
  if MAX_PLAYERS ≤ s.players.length then
    (s, [OutMsg.joinError sockId "Server is full"])
  else
    let r := createPlayer s sockId name spawnX spawnZ now
    (r.1,
     [OutMsg.joined sockId, OutMsg.playerJoined, OutMsg.playerCount r.1.players.length])

/-! ### Timer lifecycle (server entry point)

The three interval handles of the entry point — `gameLoopInterval`,
`countdownInterval`, `scoreUpdateInterval` — together with the match phase,
abstracted to whether each handle is currently set.  Each transition below
embeds the corresponding handler's effect on exactly these four pieces of
state. -/

structure SrvState where
  phase : GamePhase
  gameLoopOn : Bool
  countdownOn : Bool
  scoreUpdateOn : Bool
deriving DecidableEq, Repr

/-- `startGameLoop()`: `if (gameLoopInterval) return;` then `setInterval`. -/
def startGameLoop (t : SrvState) : SrvState :=
  if t.gameLoopOn then t else { t with gameLoopOn := true }

/-- `startScoreUpdates()`: guarded exactly like `startGameLoop`. -/
def startScoreUpdates (t : SrvState) : SrvState :=
  if t.scoreUpdateOn then t else { t with scoreUpdateOn := true }

/-- `handleGameEnd(winner)`: no-op when already ended, otherwise set phase
`ended` and clear the score-update interval. -/
def handleGameEnd (t : SrvState) : SrvState :=
  if t.phase = GamePhase.ended then t
  else { t with phase := GamePhase.ended, scoreUpdateOn := false }

/-- `startCountdown()`: phase `countdown`, countdown interval started. -/
def startCountdown (t : SrvState) : SrvState :=
  { t with phase := GamePhase.countdown, countdownOn := true }

/-- The countdown tick that reaches zero: clear the countdown interval, enter
`playing`, start the game loop and the score loop. -/
def countdownZero (t : SrvState) : SrvState :=
  startScoreUpdates (startGameLoop
    { t with countdownOn := false, phase := GamePhase.playing })

/-- The `playAgain` handler's effect on phase and timers: `resetGame()`
reverts the phase to `lobby` and touches no interval handle. -/
def playAgainStep (t : SrvState) : SrvState :=
  if t.phase = GamePhase.ended then { t with phase := GamePhase.lobby } else t

/-- The timer-relevant server events. -/
inductive SrvEvent where
  | joinEv
  | startCountdownEv
  | countdownZeroEv
  | gameEndEv
  | playAgainEv
deriving DecidableEq, Repr

def srvStep (t : SrvState) : SrvEvent → SrvState
  | SrvEvent.joinEv => startGameLoop t
  | SrvEvent.startCountdownEv => startCountdown t
  | SrvEvent.countdownZeroEv => countdownZero t
  | SrvEvent.gameEndEv => handleGameEnd t
  | SrvEvent.playAgainEv => playAgainStep t

def srvRun (t : SrvState) : List SrvEvent → SrvState
  | [] => t
  | e :: es => srvRun (srvStep t e) es

/-- The entry point's module state at process start. -/
def srvInit : SrvState :=
  { phase := GamePhase.lobby, gameLoopOn := false, countdownOn := false,
    scoreUpdateOn := false }

/-! ### Concrete instances used by witnesses and counterexamples -/

/-- A fresh lobby player (the fields `createPlayer` assigns, at spawn 0/0). -/
def mkPlayer (id : String) (joinedAt : ℚ) : Player :=
  { id := id, name := id, color := "#ff4444", colorIndex := 0,
    position := { x := 0, y := 1, z := 0 }, velocity := { x := 0, y := 0, z := 0 },
    isEliminated := false, isReady := false, score := 0, eliminations := 0,
    survivalTime := 0, outOfBoundsTime := 0, isOutOfBounds := false,
    outOfBoundsStartTime := none, gameStartTime := none, lastHitBy := none,
    joinedAt := joinedAt, eliminatedAt := none, lastUpdate := none }

/-- A victim carrying a `lastHitBy` record stamped at time 0 by player `b`. -/
def pVic : Player :=
  { mkPlayer "a" 1 with lastHitBy := some { id := "b", name := "b", timestamp := 0 } }

def pHit : Player := mkPlayer "b" 2

def sAtt : GameState :=
  { gameState := GamePhase.playing, players := [pVic, pHit], hostId := some "a",
    platformRadius := 10, gameStartTime := some 0, lastShrinkTime := some 0 }

def pA : Player := mkPlayer "A" 1

def pB : Player := mkPlayer "B" 2

def pC : Player := mkPlayer "C" 3

def sABC : GameState :=
  { gameState := GamePhase.lobby, players := [pA, pB, pC], hostId := some "A",
    platformRadius := 10, gameStartTime := none, lastShrinkTime := none }

def pDead : Player := { mkPlayer "d" 1 with isEliminated := true }

def sDead : GameState :=
  { gameState := GamePhase.playing, players := [pDead, mkPlayer "e" 2],
    hostId := some "d", platformRadius := 10, gameStartTime := some 0,
    lastShrinkTime := some 0 }

/-- A player far outside the arena, mid-excursion since time 0. -/
def pOut : Player :=
  { mkPlayer "o" 1 with position := { x := 12, y := 1, z := 0 },
                        isOutOfBounds := true, outOfBoundsStartTime := some 0 }

def sOut : GameState :=
  { gameState := GamePhase.playing, players := [pOut], hostId := some "o",
    platformRadius := 10, gameStartTime := some 0, lastShrinkTime := some 0 }

/-- A player flagged out of bounds since time 0 whose position is back inside
the arena: the state of the first tick after an excursion ends. -/
def pRet : Player :=
  { mkPlayer "r" 1 with isOutOfBounds := true, outOfBoundsStartTime := some 0 }

def sRet : GameState :=
  { gameState := GamePhase.playing, players := [pRet], hostId := some "r",
    platformRadius := 10, gameStartTime := some 0, lastShrinkTime := some 0 }

def sFull : GameState :=
  { gameState := GamePhase.lobby,
    players := (List.range 40).map (fun n => mkPlayer (toString n) (n : ℚ)),
    hostId := some "0", platformRadius := 10, gameStartTime := none,
    lastShrinkTime := none }

def sMin : GameState :=
  { gameState := GamePhase.playing, players := [], hostId := none,
    platformRadius := 4, gameStartTime := some 0, lastShrinkTime := some 0 }

def tPlay : SrvState :=
  { phase := GamePhase.playing, gameLoopOn := true, countdownOn := false,
    scoreUpdateOn := true }

/-! ### Helper lemmas about the player map -/

theorem findPlayer_id {s : GameState} {id : String} {p : Player}
    (h : findPlayer s id = some p) : p.id = id := by
  unfold findPlayer at h
  have h2 := List.find?_some h
  exact of_decide_eq_true h2

theorem find?_setPlayer_self (l : List Player) (q : Player) :
    (setPlayer l q).find? (fun p => p.id = q.id) = some q := by
  induction l with
  | nil => simp [setPlayer]
  | cons p ps ih =>
    by_cases h : p.id = q.id
    · simp [setPlayer, h]
    · simp [setPlayer, h, ih]

theorem find?_setPlayer_other (l : List Player) (q : Player) (x : String)
    (hx : x ≠ q.id) :
    (setPlayer l q).find? (fun p => p.id = x) = l.find? (fun p => p.id = x) := by
  induction l with
  | nil => simp [setPlayer, Ne.symm hx]
  | cons p ps ih =>
    by_cases h : p.id = q.id
    · have hqx : ¬ q.id = x := fun h2 => hx h2.symm
      have hpx : ¬ p.id = x := fun h2 => hx (h ▸ h2).symm
      simp [setPlayer, h, hqx, hpx]
    · by_cases h2 : p.id = x
      · simp [setPlayer, h, h2, hx]
      · simp [setPlayer, h, h2, ih]

theorem findPlayer_updatePlayer_self (s : GameState) (q : Player) :
    findPlayer (updatePlayer s q) q.id = some q :=
  find?_setPlayer_self s.players q

theorem findPlayer_updatePlayer_other (s : GameState) (q : Player) (x : String)
    (hx : x ≠ q.id) :
    findPlayer (updatePlayer s q) x = findPlayer s x :=
  find?_setPlayer_other s.players q x hx

/-! ### The square-root form of the boundary test -/

theorem sqrt_gt_iff (d c : ℝ) : c < Real.sqrt d ↔ (c < 0 ∨ c ^ 2 < d) := by
  rcases lt_or_le c 0 with h | h
  · constructor
    · intro _
      exact Or.inl h
    · intro _
      exact lt_of_lt_of_le h (Real.sqrt_nonneg d)
  · rw [Real.lt_sqrt h]
    constructor
    · intro h2
      exact Or.inr h2
    · rintro (h2 | h2)
      · exact absurd h2 (not_lt.mpr h)
      · exact h2

/-- The embedded boundary test agrees with the source's
`Math.sqrt(x^2 + z^2) > platformRadius + 1 || y < -1`. -/
theorem isCurrentlyOut_iff_sqrt (p : Player) (radius : ℚ) :
    isCurrentlyOut p radius ↔
      ((radius : ℝ) + 1 <
          Real.sqrt (((p.position.x : ℝ)) ^ 2 + ((p.position.z : ℝ)) ^ 2) ∨
        p.position.y < -1) := by
  rw [sqrt_gt_iff]
  unfold isCurrentlyOut
  constructor
  · rintro (h | h | h)
    · exact Or.inl (Or.inl (by exact_mod_cast h))
    · exact Or.inl (Or.inr (by exact_mod_cast h))
    · exact Or.inr h
  · rintro ((h | h) | h)
    · exact Or.inl (by exact_mod_cast h)
    · exact Or.inr (Or.inl (by exact_mod_cast h))
    · exact Or.inr (Or.inr h)

/-! ### Head of the join-order sort -/

instance : IsTotal Player byJoinedAt :=
  ⟨fun a b => le_total a.joinedAt b.joinedAt⟩

instance : IsTrans Player byJoinedAt :=
  ⟨fun _ _ _ h1 h2 => le_trans h1 h2⟩

theorem insertionSort_head_min (l : List Player) (h : Player) (t : List Player)
    (he : l.insertionSort byJoinedAt = h :: t) :
    h ∈ l ∧ ∀ q ∈ l, h.joinedAt ≤ q.joinedAt := by
  have hperm := List.perm_insertionSort byJoinedAt l
  have hsorted := List.sorted_insertionSort byJoinedAt l
  rw [he] at hperm hsorted
  refine ⟨hperm.mem_iff.mp (List.mem_cons_self h t), ?_⟩
  intro q hq
  have hq2 : q ∈ h :: t := hperm.mem_iff.mpr hq
  rcases List.mem_cons.mp hq2 with rfl | hq3
  · exact le_refl _
  · exact (List.pairwise_cons.mp hsorted).1 q hq3

/-! ### Field-preservation lemmas -/

theorem updateSurvival_fields (p : Player) (now : ℚ) :
    (updateSurvival p now).id = p.id ∧
    (updateSurvival p now).isOutOfBounds = p.isOutOfBounds ∧
    (updateSurvival p now).outOfBoundsTime = p.outOfBoundsTime ∧
    (updateSurvival p now).outOfBoundsStartTime = p.outOfBoundsStartTime ∧
    (updateSurvival p now).isEliminated = p.isEliminated := by
  unfold updateSurvival
  rcases hg : p.gameStartTime with _ | t
  · simp
  · split_ifs <;> simp

theorem updateBoundaryStatusP_id (p : Player) (radius now : ℚ) :
    (updateBoundaryStatusP p radius now).1.id = p.id := by
  unfold updateBoundaryStatusP
  split_ifs
  · exact (updateSurvival_fields _ _).1
  · exact (updateSurvival_fields _ _).1
  · rcases ht : p.outOfBoundsStartTime with _ | t
    · exact (updateSurvival_fields _ _).1
    · dsimp only
      split_ifs
      · rfl
      · exact (updateSurvival_fields _ _).1
  · exact (updateSurvival_fields _ _).1

theorem calcScoreP_fields (p : Player) (now : ℚ) :
    (calcScoreP p now).id = p.id ∧
    (calcScoreP p now).isEliminated = p.isEliminated ∧
    (calcScoreP p now).eliminations = p.eliminations := by
  unfold calcScoreP
  simp

/-! ### No-op eliminations on an already-eliminated player -/

theorem eliminateWithAttribution_noop (s : GameState) (id : String)
    (reason : ElimReason) (now : ℚ) (q : Player) (hq : findPlayer s id = some q)
    (he : q.isEliminated = true) :
    eliminatePlayerWithAttribution s id reason now = (s, none) := by
  unfold eliminatePlayerWithAttribution
  rw [hq]
  simp [he]

theorem eliminatePlayer_noop (s : GameState) (id : String) (now : ℚ) (q : Player)
    (hq : findPlayer s id = some q) (he : q.isEliminated = true) :
    eliminatePlayer s id now = (s, false) := by
  unfold eliminatePlayer
  rw [hq]
  simp [he]

/-- `creditStep` never disturbs the record of an eliminated player: a credit
only ever goes to a non-eliminated hitter, so any id holding an eliminated
record keeps it. -/
theorem creditStep_find_elim (s1 : GameState) (victim : Player) (reason : ElimReason)
    (now : ℚ) (x : String) (q : Player) (hq : findPlayer s1 x = some q)
    (he : q.isEliminated = true) :
    findPlayer (creditStep s1 victim reason now).1 x = some q := by
  unfold creditStep
  rcases hh : victim.lastHitBy with _ | hit <;> cases reason <;> simp only [hh] <;>
    try exact hq
  split_ifs with ht
  · rcases hf : findPlayer s1 hit.id with _ | hitter
    · simp only [hf]
      exact hq
    · simp only [hf]
      by_cases helim : hitter.isEliminated = true
      · simp only [helim, if_true]
        exact hq
      · have hxne : x ≠ hitter.id := by
          intro hx
          have h2 : findPlayer s1 hit.id = some q := by
            rw [← findPlayer_id hf, ← hx]
            exact hq
          rw [hf] at h2
          have h3 : hitter = q := by injection h2
          rw [h3] at helim
          exact helim he
        rw [if_neg helim]
        dsimp only
        rw [findPlayer_updatePlayer_other s1
          { hitter with eliminations := hitter.eliminations + 1 } x hxne]
        exact hq
  · exact hq

/-- The main-path equation of `eliminatePlayerWithAttribution` on a present,
not-yet-eliminated player. -/
theorem eliminateWithAttribution_eq (s : GameState) (id : String) (reason : ElimReason)
    (now : ℚ) (p : Player) (hp : findPlayer s id = some p)
    (hne : p.isEliminated = false) :
    eliminatePlayerWithAttribution s id reason now =
      (calculatePlayerScore
          (creditStep (updatePlayer s { p with isEliminated := true, eliminatedAt := some now })
            { p with isEliminated := true, eliminatedAt := some now } reason now).1 id now,
       some { playerId := id
              playerName := p.name
              reason := reason
              eliminatedBy :=
                (creditStep
                    (updatePlayer s { p with isEliminated := true, eliminatedAt := some now })
                    { p with isEliminated := true, eliminatedAt := some now } reason now).2
              finalScore :=
                ((findPlayer
                      (calculatePlayerScore
                        (creditStep
                            (updatePlayer s
                              { p with isEliminated := true, eliminatedAt := some now })
                            { p with isEliminated := true, eliminatedAt := some now } reason
                            now).1 id now)
                      id).map Player.score).getD 0 }) := by
  unfold eliminatePlayerWithAttribution
  rw [hp]
  simp [hne]

theorem calculatePlayerScore_eq (s : GameState) (id : String) (now : ℚ) (q : Player)
    (hq : findPlayer s id = some q) :
    calculatePlayerScore s id now = updatePlayer s (calcScoreP q now) := by
  unfold calculatePlayerScore
  rw [hq]

/-! Case equations for `creditStep`. -/

theorem creditStep_boundary (s1 : GameState) (v : Player) (now : ℚ) :
    creditStep s1 v ElimReason.boundary now = (s1, none) := by
  unfold creditStep
  rcases v.lastHitBy <;> rfl

theorem creditStep_fall (s1 : GameState) (v : Player) (now : ℚ) :
    creditStep s1 v ElimReason.fall now = (s1, none) := by
  unfold creditStep
  rcases v.lastHitBy <;> rfl

theorem creditStep_noHit (s1 : GameState) (v : Player) (now : ℚ)
    (hh : v.lastHitBy = none) :
    creditStep s1 v ElimReason.pushed now = (s1, none) := by
  unfold creditStep
  rw [hh]

theorem creditStep_stale (s1 : GameState) (v : Player) (now : ℚ) (hit : HitRecord)
    (hh : v.lastHitBy = some hit) (ht : ¬ now - hit.timestamp < 3000) :
    creditStep s1 v ElimReason.pushed now = (s1, none) := by
  unfold creditStep
  rw [hh]
  dsimp only
  rw [if_neg ht]

theorem creditStep_gone (s1 : GameState) (v : Player) (now : ℚ) (hit : HitRecord)
    (hh : v.lastHitBy = some hit) (ht : now - hit.timestamp < 3000)
    (hf : findPlayer s1 hit.id = none) :
    creditStep s1 v ElimReason.pushed now = (s1, none) := by
  unfold creditStep
  rw [hh]
  dsimp only
  rw [if_pos ht, hf]

theorem creditStep_dead (s1 : GameState) (v : Player) (now : ℚ) (hit : HitRecord)
    (hitter : Player) (hh : v.lastHitBy = some hit)
    (ht : now - hit.timestamp < 3000) (hf : findPlayer s1 hit.id = some hitter)
    (he : hitter.isEliminated = true) :
    creditStep s1 v ElimReason.pushed now = (s1, none) := by
  unfold creditStep
  rw [hh]
  dsimp only
  rw [if_pos ht, hf]
  dsimp only
  rw [if_pos he]

theorem creditStep_credit (s1 : GameState) (v : Player) (now : ℚ) (hit : HitRecord)
    (hitter : Player) (hh : v.lastHitBy = some hit)
    (ht : now - hit.timestamp < 3000) (hf : findPlayer s1 hit.id = some hitter)
    (he : hitter.isEliminated = false) :
    creditStep s1 v ElimReason.pushed now =
      (updatePlayer s1 { hitter with eliminations := hitter.eliminations + 1 },
       some { id := hitter.id, name := hitter.name }) := by
  unfold creditStep
  rw [hh]
  dsimp only
  rw [if_pos ht, hf]
  dsimp only
  rw [if_neg (by rw [he]; exact Bool.false_ne_true)]

/-- Any call to `eliminatePlayerWithAttribution` on a present player leaves an
eliminated record behind at that id. -/
theorem elim_marks (s : GameState) (id : String) (reason : ElimReason) (now : ℚ)
    (p : Player) (hp : findPlayer s id = some p) :
    ∃ q, findPlayer (eliminatePlayerWithAttribution s id reason now).1 id = some q ∧
      q.isEliminated = true := by
  by_cases he : p.isEliminated = true
  · rw [eliminateWithAttribution_noop s id reason now p hp he]
    exact ⟨p, hp, he⟩
  · have hne : p.isEliminated = false := by
      cases hb : p.isEliminated
      · rfl
      · exact absurd hb he
    rw [eliminateWithAttribution_eq s id reason now p hp hne]
    have hpid : p.id = id := findPlayer_id hp
    have hvid : ({ p with isEliminated := true, eliminatedAt := some now } : Player).id = id :=
      hpid
    have h1 : findPlayer (updatePlayer s { p with isEliminated := true, eliminatedAt := some now })
        id = some { p with isEliminated := true, eliminatedAt := some now } := by
      rw [← hvid]
      exact findPlayer_updatePlayer_self s _
    have h2 := creditStep_find_elim
      (updatePlayer s { p with isEliminated := true, eliminatedAt := some now })
      { p with isEliminated := true, eliminatedAt := some now } reason now id
      { p with isEliminated := true, eliminatedAt := some now } h1 rfl
    refine ⟨calcScoreP { p with isEliminated := true, eliminatedAt := some now } now, ?_, ?_⟩
    · unfold calculatePlayerScore
      rw [h2]
      have h3 : (calcScoreP { p with isEliminated := true, eliminatedAt := some now } now).id =
          id := by
        rw [(calcScoreP_fields _ now).1]
        exact hvid
      rw [← h3]
      exact findPlayer_updatePlayer_self _ _
    · rw [(calcScoreP_fields _ now).2.1]

theorem updateSurvival_isOut (p : Player) (now : ℚ) :
    (updateSurvival p now).isOutOfBounds = p.isOutOfBounds :=
  (updateSurvival_fields p now).2.1

theorem updateSurvival_outTime (p : Player) (now : ℚ) :
    (updateSurvival p now).outOfBoundsTime = p.outOfBoundsTime :=
  (updateSurvival_fields p now).2.2.1

theorem updateSurvival_start (p : Player) (now : ℚ) :
    (updateSurvival p now).outOfBoundsStartTime = p.outOfBoundsStartTime :=
  (updateSurvival_fields p now).2.2.2.1

/-! Branch equations for `updateBoundaryStatusP`. -/

theorem uBSP_enter (p : Player) (radius now : ℚ) (hout : isCurrentlyOut p radius)
    (hb : p.isOutOfBounds = false) :
    updateBoundaryStatusP p radius now =
      (updateSurvival { p with isOutOfBounds := true, outOfBoundsStartTime := some now }
        now, false) := by
  unfold updateBoundaryStatusP
  rw [if_pos ⟨hout, hb⟩]

theorem uBSP_leave (p : Player) (radius now : ℚ) (hout : ¬ isCurrentlyOut p radius)
    (hb : p.isOutOfBounds = true) :
    updateBoundaryStatusP p radius now =
      (updateSurvival
        { p with isOutOfBounds := false
                 outOfBoundsTime := p.outOfBoundsTime +
                   (match p.outOfBoundsStartTime with
                    | some t => (now - t) / 1000
                    | none => 0)
                 outOfBoundsStartTime := none } now, false) := by
  unfold updateBoundaryStatusP
  rw [if_neg (by simp [hout]), if_pos ⟨hout, hb⟩]

theorem uBSP_stay_elim (p : Player) (radius now t : ℚ)
    (hout : isCurrentlyOut p radius) (hb : p.isOutOfBounds = true)
    (ho : p.outOfBoundsStartTime = some t)
    (hge : 10 ≤ p.outOfBoundsTime + (now - t) / 1000) :
    updateBoundaryStatusP p radius now =
      ({ p with outOfBoundsTime := p.outOfBoundsTime + (now - t) / 1000
                outOfBoundsStartTime := none }, true) := by
  unfold updateBoundaryStatusP
  rw [if_neg (by simp [hb]), if_neg (by simp [hout]), if_pos ⟨hout, hb⟩, ho]
  dsimp only
  rw [if_pos hge]

theorem uBSP_stay_noElim (p : Player) (radius now t : ℚ)
    (hout : isCurrentlyOut p radius) (hb : p.isOutOfBounds = true)
    (ho : p.outOfBoundsStartTime = some t)
    (hlt : ¬ 10 ≤ p.outOfBoundsTime + (now - t) / 1000) :
    updateBoundaryStatusP p radius now = (updateSurvival p now, false) := by
  unfold updateBoundaryStatusP
  rw [if_neg (by simp [hb]), if_neg (by simp [hout]), if_pos ⟨hout, hb⟩, ho]
  dsimp only
  rw [if_neg hlt]

theorem uBSP_stay_noStart (p : Player) (radius now : ℚ)
    (hout : isCurrentlyOut p radius) (hb : p.isOutOfBounds = true)
    (ho : p.outOfBoundsStartTime = none) :
    updateBoundaryStatusP p radius now = (updateSurvival p now, false) := by
  unfold updateBoundaryStatusP
  rw [if_neg (by simp [hb]), if_neg (by simp [hout]), if_pos ⟨hout, hb⟩, ho]

theorem uBSP_in (p : Player) (radius now : ℚ) (hout : ¬ isCurrentlyOut p radius)
    (hb : p.isOutOfBounds = false) :
    updateBoundaryStatusP p radius now = (updateSurvival p now, false) := by
  unfold updateBoundaryStatusP
  rw [if_neg (by simp [hout]), if_neg (by simp [hb]), if_neg (by simp [hout])]

/-- After one evaluation, the stored `isOutOfBounds` flag agrees with the
boundary test of this tick, in every branch. -/
theorem updateBoundaryStatusP_isOut (p : Player) (radius now : ℚ) :
    (updateBoundaryStatusP p radius now).1.isOutOfBounds = true ↔
      isCurrentlyOut p radius := by
  by_cases hout : isCurrentlyOut p radius <;> cases hb : p.isOutOfBounds
  · rw [uBSP_enter p radius now hout hb]
    simp [updateSurvival_isOut, hout]
  · rcases ho : p.outOfBoundsStartTime with _ | t
    · rw [uBSP_stay_noStart p radius now hout hb ho]
      simp [updateSurvival_isOut, hb, hout]
    · by_cases hge : 10 ≤ p.outOfBoundsTime + (now - t) / 1000
      · rw [uBSP_stay_elim p radius now t hout hb ho hge]
        simp [hb, hout]
      · rw [uBSP_stay_noElim p radius now t hout hb ho hge]
        simp [updateSurvival_isOut, hb, hout]
  · rw [uBSP_in p radius now hout hb]
    simp [updateSurvival_isOut, hb, hout]
  · rw [uBSP_leave p radius now hout hb]
    simp [updateSurvival_isOut, hout]

/-- The elimination signal fires iff the player is out of bounds now, was
already flagged out of bounds with the excursion marker set, and the stored
time plus the current excursion reaches 10 seconds. -/
theorem updateBoundaryStatusP_ret (p : Player) (radius now : ℚ) :
    (updateBoundaryStatusP p radius now).2 = true ↔
      (isCurrentlyOut p radius ∧ p.isOutOfBounds = true ∧
        p.outOfBoundsStartTime ≠ none ∧
        10 ≤ p.outOfBoundsTime + (now - p.outOfBoundsStartTime.getD 0) / 1000) := by
  by_cases hout : isCurrentlyOut p radius <;> cases hb : p.isOutOfBounds
  · rw [uBSP_enter p radius now hout hb]
    simp
  · rcases ho : p.outOfBoundsStartTime with _ | t
    · rw [uBSP_stay_noStart p radius now hout hb ho]
      simp [ho]
    · by_cases hge : 10 ≤ p.outOfBoundsTime + (now - t) / 1000
      · rw [uBSP_stay_elim p radius now t hout hb ho hge]
        simp [hout, ho, hge]
      · rw [uBSP_stay_noElim p radius now t hout hb ho hge]
        simp [ho, hge]
  · rw [uBSP_in p radius now hout hb]
    simp
  · rw [uBSP_leave p radius now hout hb]
    simp [hout]

/-- When the elimination signal fires, the cumulative time is finalized into
`outOfBoundsTime` and the excursion marker is cleared. -/
theorem updateBoundaryStatusP_final (p : Player) (radius now : ℚ)
    (hr : (updateBoundaryStatusP p radius now).2 = true) :
    (updateBoundaryStatusP p radius now).1.outOfBoundsTime =
      p.outOfBoundsTime + (now - p.outOfBoundsStartTime.getD 0) / 1000 ∧
    (updateBoundaryStatusP p radius now).1.outOfBoundsStartTime = none := by
  obtain ⟨hout, hb, ho, hge⟩ := (updateBoundaryStatusP_ret p radius now).mp hr
  rcases hos : p.outOfBoundsStartTime with _ | t
  · exact absurd hos ho
  · rw [hos] at hge
    simp only [Option.getD_some] at hge
    rw [uBSP_stay_elim p radius now t hout hb hos hge]
    simp

/-! ### Claim theorems -/

/-- **C3 (counterexample)**: on the tick where a participant returns in
bounds (excursion marker set at 0 ms, evaluated at 10040 ms), the cumulative
out-of-bounds time — stored 0 s plus the 10.04 s excursion — has reached
10 seconds, yet `updateBoundaryStatus` returns `false`: the time is merely
accumulated and the marker cleared, no elimination is signalled.  Hence
"returns true if and only if the cumulative out-of-bounds time reaches 10
seconds" is false of the code. -/
theorem boundary_return_cex :
    findPlayer sRet "r" = some pRet ∧
    pRet.isEliminated = false ∧
    pRet.isOutOfBounds = true ∧
    pRet.outOfBoundsStartTime = some 0 ∧
    10 ≤ pRet.outOfBoundsTime + (10040 - (0 : ℚ)) / 1000 ∧
    (updateBoundaryStatus sRet "r" 10 10040).2 = false := by
  refine ⟨by decide, by decide, by decide, by decide, ?_, ?_⟩
  · norm_num [pRet, mkPlayer]
  · have h1 : findPlayer sRet "r" = some pRet := by decide
    have hout : ¬ isCurrentlyOut pRet 10 := by
      unfold isCurrentlyOut
      norm_num [pRet, mkPlayer]
    unfold updateBoundaryStatus
    rw [h1]
    have hne : pRet.isEliminated = false := by decide
    simp only [hne, Bool.false_eq_true, if_false]
    cases hret : (updateBoundaryStatusP pRet 10 10040).2
    · rfl
    · exact absurd ((updateBoundaryStatusP_ret pRet 10 10040).mp hret).1 hout

/-- **C10**: whenever the platform radius is at or below the configured
minimum (4 units), or the match has not started (`lastShrinkTime` unset),
`getShrinkWarningState` reports no warning and zero progress — so once the
arena has shrunk to minimum size no further shrink warning is produced, for
every interval, warning window and query time. -/
theorem shrink_warning_floor (s : GameState) (shrinkInterval warningTime now : ℚ)
    (h : s.lastShrinkTime = none ∨ s.platformRadius ≤ MIN_RADIUS) :
    getShrinkWarningState s shrinkInterval warningTime now =
      { isWarning := false, warningProgress := 0 } := by
  unfold getShrinkWarningState
  rw [if_pos h]

theorem shrink_warning_floor_w :
    getShrinkWarningState sMin SHRINK_INTERVAL SHRINK_WARNING_TIME 99999 =
      { isWarning := false, warningProgress := 0 } :=
  shrink_warning_floor sMin SHRINK_INTERVAL SHRINK_WARNING_TIME 99999
    (Or.inr (by decide))

/-- **C7**: a join arriving at the configured cap (40 participants) replies
`joinError` to the requester only and performs no state change: the full
session state — participant list, hostId, phase, platform radius — is
returned untouched and `createPlayer` is never reached. -/
theorem join_rejected_at_cap (s : GameState) (sockId name : String)
    (spawnX spawnZ now : ℚ) (hcap : MAX_PLAYERS ≤ s.players.length) :
    handleJoin s sockId name spawnX spawnZ now =
      (s, [OutMsg.joinError sockId "Server is full"]) := by
  unfold handleJoin
  rw [if_pos hcap]

theorem join_rejected_at_cap_w :
    handleJoin sFull "sock41" "Zoe" 0 0 12345 =
      (sFull, [OutMsg.joinError "sock41" "Server is full"]) :=
  join_rejected_at_cap sFull "sock41" "Zoe" 0 0 12345 (by decide)

/-- Once the game-loop interval handle is set, no server event ever clears
it. -/
theorem gameLoopOn_persists (es : List SrvEvent) :
    ∀ t : SrvState, t.gameLoopOn = true → (srvRun t es).gameLoopOn = true := by
  induction es with
  | nil =>
    intro t h
    exact h
  | cons e es ih =>
    intro t h
    refine ih _ ?_
    cases e <;>
      simp only [srvStep, startGameLoop, startCountdown, countdownZero,
        startScoreUpdates, handleGameEnd, playAgainStep] <;>
      (try split_ifs) <;> simp_all

/-- **C9 (amended)**: of the three interval timers, the score-update interval
is cleared exactly once when the match ends (`handleGameEnd` clears it and a
second call is a no-op thanks to the `Ended` guard), and the countdown
interval is cleared when the countdown reaches zero; but the main game-loop
interval, once started, is never cleared by any sequence of server events —
it keeps running after the match ends and after a round reset, idling on its
internal phase guard. -/
theorem timer_lifecycle (t : SrvState) (es : List SrvEvent)
    (hOn : t.gameLoopOn = true) (hPhase : t.phase = GamePhase.playing) :
    (srvRun t es).gameLoopOn = true ∧
    (handleGameEnd t).scoreUpdateOn = false ∧
    handleGameEnd (handleGameEnd t) = handleGameEnd t ∧
    (countdownZero t).countdownOn = false := by
  refine ⟨gameLoopOn_persists es t hOn, ?_, ?_, ?_⟩
  · simp [handleGameEnd, hPhase]
  · simp [handleGameEnd, hPhase]
  · simp only [countdownZero, startGameLoop, startScoreUpdates]
    split_ifs <;> rfl

theorem timer_lifecycle_w :
    (srvRun tPlay [SrvEvent.gameEndEv]).gameLoopOn = true ∧
    (handleGameEnd tPlay).scoreUpdateOn = false ∧
    handleGameEnd (handleGameEnd tPlay) = handleGameEnd tPlay ∧
    (countdownZero tPlay).countdownOn = false :=
  timer_lifecycle tPlay [SrvEvent.gameEndEv] (by decide) (by decide)

/-- **C9 (counterexample)**: starting from process start, after a join starts
the game loop and a full countdown/match/end cycle runs, the game-loop
interval is still set while the phase is `ended` — and still set after the
round is reset — so it is false that no interval keeps running after the
match ends or the round is reset. -/
theorem timer_leak_cex :
    (srvRun srvInit [SrvEvent.joinEv, SrvEvent.startCountdownEv,
        SrvEvent.countdownZeroEv, SrvEvent.gameEndEv]).phase = GamePhase.ended ∧
    (srvRun srvInit [SrvEvent.joinEv, SrvEvent.startCountdownEv,
        SrvEvent.countdownZeroEv, SrvEvent.gameEndEv]).gameLoopOn = true ∧
    (srvRun srvInit [SrvEvent.joinEv, SrvEvent.startCountdownEv,
        SrvEvent.countdownZeroEv, SrvEvent.gameEndEv, SrvEvent.playAgainEv]).phase =
      GamePhase.lobby ∧
    (srvRun srvInit [SrvEvent.joinEv, SrvEvent.startCountdownEv,
        SrvEvent.countdownZeroEv, SrvEvent.gameEndEv,
        SrvEvent.playAgainEv]).gameLoopOn = true := by
  decide

/-- **C5**: elimination is terminal for the three mutating operations the
claim names — for a participant whose record is eliminated,
`updatePlayerPosition` is a no-op, `recordCollision` refuses to stamp
`lastHitBy` whichever side the eliminated participant is on, and
`updateBoundaryStatus` returns immediately with no state change and no
elimination signal. -/
theorem elimination_terminal (s : GameState) (id other : String) (position : Vec3)
    (velocity : Option Vec3) (radius now now2 now3 : ℚ) (p : Player)
    (hp : findPlayer s id = some p) (he : p.isEliminated = true) :
    updatePlayerPosition s id position velocity now = s ∧
    recordCollision s id other now2 = s ∧
    recordCollision s other id now2 = s ∧
    updateBoundaryStatus s id radius now3 = (s, false) := by
  refine ⟨?_, ?_, ?_, ?_⟩
  · unfold updatePlayerPosition
    rw [hp]
    simp [he]
  · unfold recordCollision
    rcases hf : findPlayer s other with _ | q
    · rw [hp]
    · rw [hp]
      simp [he]
  · unfold recordCollision
    rcases hf : findPlayer s other with _ | q
    · rfl
    · rw [hp]
      simp [he]
  · unfold updateBoundaryStatus
    rw [hp]
    simp [he]

theorem elimination_terminal_w :
    updatePlayerPosition sDead "d" { x := 1, y := 1, z := 1 } none 5 = sDead ∧
    recordCollision sDead "d" "e" 6 = sDead ∧
    recordCollision sDead "e" "d" 6 = sDead ∧
    updateBoundaryStatus sDead "d" 10 7 = (sDead, false) :=
  elimination_terminal sDead "d" "e" { x := 1, y := 1, z := 1 } none 10 5 6 7 pDead
    (by decide) (by decide)

/-- **C6**: eliminating is idempotent in effect — after any first call of
`eliminatePlayerWithAttribution` on a present participant, a second call
(with any reason and time) returns `none` and leaves the state untouched,
and `eliminatePlayer` likewise returns `false` with no state change; in
particular no hitter's `eliminations` counter can be incremented twice for
the same participant. -/
theorem eliminate_idempotent (s : GameState) (id : String) (r1 r2 : ElimReason)
    (now1 now2 now3 : ℚ) (p : Player) (hp : findPlayer s id = some p) :
    eliminatePlayerWithAttribution (eliminatePlayerWithAttribution s id r1 now1).1 id
        r2 now2 = ((eliminatePlayerWithAttribution s id r1 now1).1, none) ∧
    eliminatePlayer (eliminatePlayerWithAttribution s id r1 now1).1 id now3 =
      ((eliminatePlayerWithAttribution s id r1 now1).1, false) := by
  obtain ⟨q, hq, he⟩ := elim_marks s id r1 now1 p hp
  exact ⟨eliminateWithAttribution_noop _ id r2 now2 q hq he,
    eliminatePlayer_noop _ id now3 q hq he⟩

/-- **C2**: `calculatePlayerScore` stores exactly
`max(0, eliminations*100 + survivalTimeSeconds - outOfBoundsTimeSeconds*10)`,
where the survival seconds are the live elapsed time since the player's match
start while the player is alive and in bounds (otherwise the stored total),
and the out-of-bounds seconds include the live in-progress excursion while
the player is currently out of bounds; the stored score is never negative,
whatever the input magnitudes. -/
theorem score_formula (s : GameState) (id : String) (now : ℚ) (p : Player)
    (hp : findPlayer s id = some p) :
    (findPlayer (calculatePlayerScore s id now) id).map Player.score =
      some (max 0 ((p.eliminations : ℚ) * 100 +
        (if p.isEliminated = false ∧ p.isOutOfBounds = false ∧ p.gameStartTime ≠ none then
           (now - p.gameStartTime.getD 0) / 1000
         else p.survivalTime) -
        (p.outOfBoundsTime +
          (if p.isOutOfBounds = true ∧ p.outOfBoundsStartTime ≠ none then
             (now - p.outOfBoundsStartTime.getD 0) / 1000
           else 0)) * 10)) ∧
    0 ≤ ((findPlayer (calculatePlayerScore s id now) id).map Player.score).getD 0 := by
  have hpid : p.id = id := findPlayer_id hp
  have h1 : findPlayer (calculatePlayerScore s id now) id = some (calcScoreP p now) := by
    unfold calculatePlayerScore
    rw [hp]
    have h2 : (calcScoreP p now).id = id := by
      rw [(calcScoreP_fields p now).1]
      exact hpid
    rw [← h2]
    exact findPlayer_updatePlayer_self s _
  rw [h1]
  constructor
  · unfold calcScoreP
    rcases hg : p.gameStartTime with _ | t <;>
      rcases ho : p.outOfBoundsStartTime with _ | u <;>
      cases hb : p.isOutOfBounds <;>
      cases hel : p.isEliminated <;>
      simp [hg, ho, hb, hel]
  · unfold calcScoreP
    dsimp only [Option.map_some, Option.getD_some]
    exact le_max_left 0 _

theorem score_formula_w :
    (findPlayer (calculatePlayerScore sAtt "a" 50) "a").map Player.score =
      some (max 0 ((pVic.eliminations : ℚ) * 100 +
        (if pVic.isEliminated = false ∧ pVic.isOutOfBounds = false ∧
             pVic.gameStartTime ≠ none then
           (50 - pVic.gameStartTime.getD 0) / 1000
         else pVic.survivalTime) -
        (pVic.outOfBoundsTime +
          (if pVic.isOutOfBounds = true ∧ pVic.outOfBoundsStartTime ≠ none then
             (50 - pVic.outOfBoundsStartTime.getD 0) / 1000
           else 0)) * 10)) ∧
    0 ≤ ((findPlayer (calculatePlayerScore sAtt "a" 50) "a").map Player.score).getD 0 :=
  score_formula sAtt "a" 50 pVic (by decide)

/-- **C4**: `removePlayer` on the host promotes the remaining participant
with the smallest `joinedAt` (never an arbitrary one), clears the host when
nobody remains, and leaves `hostId` unchanged when a non-host is removed. -/
theorem host_reassignment (s : GameState) (id : String) (p : Player)
    (hp : findPlayer s id = some p) :
    (s.hostId = some id →
       (s.players.filter (fun q => q.id ≠ id) = [] →
          (removePlayer s id).1.hostId = none) ∧
       (∀ r rs, s.players.filter (fun q => q.id ≠ id) = r :: rs →
          ∃ h, (removePlayer s id).1.hostId = some h.id ∧
            h ∈ s.players.filter (fun q => q.id ≠ id) ∧
            ∀ q ∈ s.players.filter (fun q => q.id ≠ id), h.joinedAt ≤ q.joinedAt)) ∧
    (s.hostId ≠ some id → (removePlayer s id).1.hostId = s.hostId) := by
  constructor
  · intro hhost
    constructor
    · intro hnil
      unfold removePlayer
      rw [hp]
      simp only [hhost, if_pos, hnil]
      rfl
    · intro r rs hcons
      have hperm := List.perm_insertionSort byJoinedAt
        (s.players.filter (fun q => q.id ≠ id))
      rcases hsort : (s.players.filter (fun q => q.id ≠ id)).insertionSort byJoinedAt with
        _ | ⟨h, t⟩
      · rw [hsort, hcons] at hperm
        exact absurd hperm.symm (by simp)
      · obtain ⟨hmem, hmin⟩ := insertionSort_head_min _ h t hsort
        refine ⟨h, ?_, hmem, hmin⟩
        unfold removePlayer
        rw [hp]
        simp only [hhost, if_pos, hsort]
  · intro hhost
    unfold removePlayer
    rw [hp]
    simp only [if_neg hhost]

theorem host_reassignment_w :
    ((removePlayer sABC "A").1.hostId = some "B" ∧
      (removePlayer (removePlayer sABC "A").1 "B").1.hostId = some "C") ∧
    (removePlayer sABC "C").1.hostId = sABC.hostId :=
  ⟨by decide, (host_reassignment sABC "C" pC (by decide)).2 (by decide)⟩

/-- **C8**: `resetGame` reverts the phase to the lobby and restores the
initial platform radius, and a subsequent fresh transition into `playing`
followed by `initGameTimes` leaves every participant with zero
`eliminations`, `survivalTime` and `outOfBoundsTime`, not eliminated, with
`lastHitBy` cleared and the match-start stamp set; each record is the
original one mutated in place — id, name, color and `joinedAt` are
preserved positionally. -/
theorem reset_roundtrip (s : GameState) (spawnOf : String → ℚ × ℚ) (now : ℚ) :
    (resetGame s spawnOf).gameState = GamePhase.lobby ∧
    (resetGame s spawnOf).platformRadius = INITIAL_RADIUS ∧
    (initGameTimes (setGameState (resetGame s spawnOf) GamePhase.playing now)
          now).players.map (fun p => (p.id, p.name, p.color, p.joinedAt)) =
      s.players.map (fun p => (p.id, p.name, p.color, p.joinedAt)) ∧
    ∀ p ∈ (initGameTimes (setGameState (resetGame s spawnOf) GamePhase.playing now)
        now).players,
      p.eliminations = 0 ∧ p.survivalTime = 0 ∧ p.outOfBoundsTime = 0 ∧
        p.isEliminated = false ∧ p.lastHitBy = none ∧ p.gameStartTime = some now := by
  refine ⟨rfl, rfl, ?_, ?_⟩
  · simp only [initGameTimes, setGameState, resetGame, if_pos, List.map_map]
    refine List.map_congr_left ?_
    intro a _
    simp [resetPlayerP]
  · intro p hp
    simp only [initGameTimes, setGameState, resetGame, if_pos, List.map_map,
      List.mem_map] at hp
    obtain ⟨a, _, ha⟩ := hp
    rw [← ha]
    simp [resetPlayerP]

/-- **C3 (amended)**: for every present, non-eliminated participant, one
evaluation of `updateBoundaryStatus` classifies the participant out of
bounds (the stored flag after the call) iff the planar distance
`sqrt(x^2+z^2)` from the arena center exceeds `platformRadius + 1` or the
vertical position is below `-1`; and it returns `true` (boundary
elimination) iff the participant is out of bounds now, was already flagged
out of bounds with the excursion start marker set from an earlier tick, and
the stored `outOfBoundsTime` plus the current excursion reaches 10 seconds —
on the excursion's entry tick and on the return-to-bounds tick it always
returns `false`, even when the cumulative time has already reached 10 s.
When it returns `true`, the cumulative time is finalized into
`outOfBoundsTime` and the marker is cleared. -/
theorem boundary_status_spec (s : GameState) (id : String) (radius now : ℚ)
    (p : Player) (hp : findPlayer s id = some p) (hne : p.isEliminated = false) :
    ((findPlayer (updateBoundaryStatus s id radius now).1 id).map Player.isOutOfBounds =
        some true ↔
      ((radius : ℝ) + 1 <
          Real.sqrt (((p.position.x : ℝ)) ^ 2 + ((p.position.z : ℝ)) ^ 2) ∨
        p.position.y < -1)) ∧
    ((updateBoundaryStatus s id radius now).2 = true ↔
      (isCurrentlyOut p radius ∧ p.isOutOfBounds = true ∧
        p.outOfBoundsStartTime ≠ none ∧
        10 ≤ p.outOfBoundsTime + (now - p.outOfBoundsStartTime.getD 0) / 1000)) ∧
    ((updateBoundaryStatus s id radius now).2 = true →
      (findPlayer (updateBoundaryStatus s id radius now).1 id).map
          Player.outOfBoundsTime =
        some (p.outOfBoundsTime + (now - p.outOfBoundsStartTime.getD 0) / 1000) ∧
      (findPlayer (updateBoundaryStatus s id radius now).1 id).map
          Player.outOfBoundsStartTime = some none) := by
  have hpid : p.id = id := findPlayer_id hp
  have heq : updateBoundaryStatus s id radius now =
      (updatePlayer s (updateBoundaryStatusP p radius now).1,
       (updateBoundaryStatusP p radius now).2) := by
    unfold updateBoundaryStatus
    rw [hp]
    simp [hne]
  have hfid : findPlayer (updatePlayer s (updateBoundaryStatusP p radius now).1) id =
      some (updateBoundaryStatusP p radius now).1 := by
    have h2 : (updateBoundaryStatusP p radius now).1.id = id := by
      rw [updateBoundaryStatusP_id]
      exact hpid
    rw [← h2]
    exact findPlayer_updatePlayer_self s _
  rw [heq]
  dsimp only
  rw [hfid]
  dsimp only [Option.map]
  refine ⟨?_, ?_, ?_⟩
  · rw [← isCurrentlyOut_iff_sqrt, ← updateBoundaryStatusP_isOut p radius now]
    simp
  · exact updateBoundaryStatusP_ret p radius now
  · intro hr
    obtain ⟨h1, h2⟩ := updateBoundaryStatusP_final p radius now hr
    rw [h1, h2]
    exact ⟨rfl, rfl⟩

theorem boundary_status_spec_w :
    ((findPlayer (updateBoundaryStatus sOut "o" 10 11000).1 "o").map
          Player.isOutOfBounds = some true ↔
      (((10 : ℚ) : ℝ) + 1 <
          Real.sqrt (((pOut.position.x : ℝ)) ^ 2 + ((pOut.position.z : ℝ)) ^ 2) ∨
        pOut.position.y < -1)) ∧
    ((updateBoundaryStatus sOut "o" 10 11000).2 = true ↔
      (isCurrentlyOut pOut 10 ∧ pOut.isOutOfBounds = true ∧
        pOut.outOfBoundsStartTime ≠ none ∧
        10 ≤ pOut.outOfBoundsTime +
          (11000 - pOut.outOfBoundsStartTime.getD 0) / 1000)) ∧
    ((updateBoundaryStatus sOut "o" 10 11000).2 = true →
      (findPlayer (updateBoundaryStatus sOut "o" 10 11000).1 "o").map
          Player.outOfBoundsTime =
        some (pOut.outOfBoundsTime +
          (11000 - pOut.outOfBoundsStartTime.getD 0) / 1000) ∧
      (findPlayer (updateBoundaryStatus sOut "o" 10 11000).1 "o").map
          Player.outOfBoundsStartTime = some none) :=
  boundary_status_spec sOut "o" 10 11000 pOut (by decide) (by decide)

/-- **C1**: for a present, not-yet-eliminated participant,
`eliminatePlayerWithAttribution` grants attribution iff the reason is
`pushed`, a `lastHitBy` record is set, the recorded hit is strictly less
than 3000 ms old, and the recorded hitter is a present participant distinct
from the victim that is not eliminated at credit time; when granted, the
result carries the hitter's id/name and the hitter's `eliminations` counter
is incremented by exactly one; `boundary` eliminations never carry
attribution and never change any participant's `eliminations` counter. -/
theorem elimination_attribution (s : GameState) (id : String) (reason : ElimReason)
    (now : ℚ) (p : Player) (hp : findPlayer s id = some p)
    (hne : p.isEliminated = false) :
    ((((eliminatePlayerWithAttribution s id reason now).2).bind
          ElimInfo.eliminatedBy).isSome = true ↔
      (reason = ElimReason.pushed ∧ ∃ hit hitter, p.lastHitBy = some hit ∧
        now - hit.timestamp < 3000 ∧ hit.id ≠ id ∧
        findPlayer s hit.id = some hitter ∧ hitter.isEliminated = false)) ∧
    (∀ hit hitter, reason = ElimReason.pushed → p.lastHitBy = some hit →
      now - hit.timestamp < 3000 → hit.id ≠ id → findPlayer s hit.id = some hitter →
      hitter.isEliminated = false →
      ((eliminatePlayerWithAttribution s id reason now).2).bind ElimInfo.eliminatedBy =
          some { id := hitter.id, name := hitter.name } ∧
        (findPlayer (eliminatePlayerWithAttribution s id reason now).1 hit.id).map
            Player.eliminations = some (hitter.eliminations + 1)) ∧
    (reason = ElimReason.boundary →
      ((eliminatePlayerWithAttribution s id reason now).2).bind ElimInfo.eliminatedBy =
          none ∧
        ∀ x, (findPlayer (eliminatePlayerWithAttribution s id reason now).1 x).map
            Player.eliminations = (findPlayer s x).map Player.eliminations) := by
  have hpid : p.id = id := findPlayer_id hp
  have hmain := eliminateWithAttribution_eq s id reason now p hp hne
  obtain ⟨v, hv⟩ : ∃ v : Player,
      ({ p with isEliminated := true, eliminatedAt := some now } : Player) = v :=
    ⟨_, rfl⟩
  rw [hv] at hmain
  have hvid : v.id = id := by
    rw [← hv]
    exact hpid
  have hvelim : v.isEliminated = true := by rw [← hv]
  have hvhit : v.lastHitBy = p.lastHitBy := by rw [← hv]
  have hvelims : v.eliminations = p.eliminations := by rw [← hv]
  have hs1self : findPlayer (updatePlayer s v) id = some v := by
    rw [← hvid]
    exact findPlayer_updatePlayer_self s v
  have hs1other : ∀ x, x ≠ id → findPlayer (updatePlayer s v) x = findPlayer s x := by
    intro x hx
    refine findPlayer_updatePlayer_other s v x ?_
    rw [hvid]
    exact hx
  rw [hmain]
  dsimp only [Option.bind]
  refine ⟨?_, ?_, ?_⟩
  · constructor
    · intro hsome
      cases reason with
      | boundary =>
        rw [creditStep_boundary] at hsome
        simp at hsome
      | fall =>
        rw [creditStep_fall] at hsome
        simp at hsome
      | pushed =>
        refine ⟨rfl, ?_⟩
        rcases hph : p.lastHitBy with _ | hit
        · rw [creditStep_noHit _ _ _ (by rw [hvhit]; exact hph)] at hsome
          simp at hsome
        · have hvh : v.lastHitBy = some hit := by
            rw [hvhit]
            exact hph
          by_cases ht : now - hit.timestamp < 3000
          · by_cases hid : hit.id = id
            · have hfv : findPlayer (updatePlayer s v) hit.id = some v := by
                rw [hid]
                exact hs1self
              rw [creditStep_dead _ _ _ hit v hvh ht hfv hvelim] at hsome
              simp at hsome
            · rcases hfs : findPlayer s hit.id with _ | hitter
              · have hf1 : findPlayer (updatePlayer s v) hit.id = none := by
                  rw [hs1other hit.id hid]
                  exact hfs
                rw [creditStep_gone _ _ _ hit hvh ht hf1] at hsome
                simp at hsome
              · have hf1 : findPlayer (updatePlayer s v) hit.id = some hitter := by
                  rw [hs1other hit.id hid]
                  exact hfs
                cases helim : hitter.isEliminated
                · exact ⟨hit, hitter, rfl, ht, hid, hfs, helim⟩
                · rw [creditStep_dead _ _ _ hit hitter hvh ht hf1 helim] at hsome
                  simp at hsome
          · rw [creditStep_stale _ _ _ hit hvh ht] at hsome
            simp at hsome
    · rintro ⟨hr, hit, hitter, hh, ht, hhid, hf, hhe⟩
      subst hr
      have hvh : v.lastHitBy = some hit := by
        rw [hvhit]
        exact hh
      have hf1 : findPlayer (updatePlayer s v) hit.id = some hitter := by
        rw [hs1other hit.id hhid]
        exact hf
      rw [creditStep_credit _ _ _ hit hitter hvh ht hf1 hhe]
      rfl
  · intro hit hitter hr hh ht hhid hf hhe
    subst hr
    have hvh : v.lastHitBy = some hit := by
      rw [hvhit]
      exact hh
    have hf1 : findPlayer (updatePlayer s v) hit.id = some hitter := by
      rw [hs1other hit.id hhid]
      exact hf
    rw [creditStep_credit _ _ _ hit hitter hvh ht hf1 hhe]
    dsimp only
    refine ⟨rfl, ?_⟩
    have hhitid : hitter.id = hit.id := findPlayer_id hf
    have h1id : ({ hitter with eliminations := hitter.eliminations + 1 } : Player).id =
        hit.id := hhitid
    have hs2cid : findPlayer (updatePlayer (updatePlayer s v)
        { hitter with eliminations := hitter.eliminations + 1 }) id = some v := by
      rw [findPlayer_updatePlayer_other _ _ id (by rw [h1id]; exact Ne.symm hhid)]
      exact hs1self
    rw [calculatePlayerScore_eq _ id now v hs2cid]
    have hcid : (calcScoreP v now).id = id := by
      rw [(calcScoreP_fields v now).1]
      exact hvid
    rw [findPlayer_updatePlayer_other _ _ hit.id (by rw [hcid]; exact hhid)]
    rw [← h1id, findPlayer_updatePlayer_self]
    rfl
  · intro hr
    subst hr
    rw [creditStep_boundary]
    dsimp only
    refine ⟨rfl, ?_⟩
    intro x
    rw [calculatePlayerScore_eq _ id now v hs1self]
    have hcid : (calcScoreP v now).id = id := by
      rw [(calcScoreP_fields v now).1]
      exact hvid
    by_cases hx : x = id
    · rw [hx, hp, ← hcid, findPlayer_updatePlayer_self]
      dsimp only [Option.map]
      rw [(calcScoreP_fields v now).2.2, hvelims]
    · rw [findPlayer_updatePlayer_other _ _ x (by rw [hcid]; exact hx)]
      rw [hs1other x hx]

theorem elimination_attribution_w :
    ((eliminatePlayerWithAttribution sAtt "a" ElimReason.pushed 2999).2).bind
        ElimInfo.eliminatedBy = some { id := "b", name := "b" } ∧
    (findPlayer (eliminatePlayerWithAttribution sAtt "a" ElimReason.pushed 2999).1
        "b").map Player.eliminations = some (pHit.eliminations + 1) :=
  (elimination_attribution sAtt "a" ElimReason.pushed 2999 pVic (by decide)
      (by decide)).2.1
    { id := "b", name := "b", timestamp := 0 } pHit rfl (by decide) (by norm_num)
    (by decide) (by decide) (by decide)

theorem reset_roundtrip_w :
    (resetGame sABC (fun _ => (0, 0))).gameState = GamePhase.lobby ∧
    (resetGame sABC (fun _ => (0, 0))).platformRadius = INITIAL_RADIUS ∧
    ({ pA with gameStartTime := some 77 } : Player).eliminations = 0 ∧
    ({ pA with gameStartTime := some 77 } : Player).survivalTime = 0 ∧
    ({ pA with gameStartTime := some 77 } : Player).outOfBoundsTime = 0 ∧
    ({ pA with gameStartTime := some 77 } : Player).isEliminated = false ∧
    ({ pA with gameStartTime := some 77 } : Player).lastHitBy = none ∧
    ({ pA with gameStartTime := some 77 } : Player).gameStartTime = some 77 := by
  have h := reset_roundtrip sABC (fun _ => (0, 0)) 77
  have h4 := h.2.2.2 { pA with gameStartTime := some 77 } (by decide)
  exact ⟨h.1, h.2.1, h4.1, h4.2.1, h4.2.2.1, h4.2.2.2.1, h4.2.2.2.2.1, h4.2.2.2.2.2⟩

theorem eliminate_idempotent_w :
    eliminatePlayerWithAttribution
        (eliminatePlayerWithAttribution sAtt "a" ElimReason.pushed 100).1 "a"
        ElimReason.pushed 200 =
      ((eliminatePlayerWithAttribution sAtt "a" ElimReason.pushed 100).1, none) ∧
    eliminatePlayer (eliminatePlayerWithAttribution sAtt "a" ElimReason.pushed 100).1
        "a" 300 =
      ((eliminatePlayerWithAttribution sAtt "a" ElimReason.pushed 100).1, false) :=
  eliminate_idempotent sAtt "a" ElimReason.pushed ElimReason.pushed 100 200 300 pVic
    (by decide)

end SpacePush
